import Mathlib

/-!
Shallow embedding of the Aegentix CRUD routes (gallery, teams, runs, settings)
and of the generic database layer they call.  The route handlers are translated
from `src/autogenstudio/web/routes/`.  The `DatabaseManager` and the ORM data
model are not part of the provided sources, so they are modelled from the
specification (sections 3 and 4.1): rows are records carrying their columns,
`get` returns the rows matching every filter equality, `upsert` inserts when no
primary key is present and otherwise updates by primary key, and `delete`
removes the rows matching the filters, applying the declared cascade rules,
returning success even when zero rows matched.
-/

/-- Run lifecycle states (spec section 3: `status: enum{CREATED, ACTIVE, COMPLETE, ...}`). -/
inductive RunStatus where
  | CREATED
  | ACTIVE
  | COMPLETE
  | ERROR
  | STOPPED
  deriving DecidableEq, Repr

/-- Modelled from the spec: `Team(id, user_id, component: JSON blob, tenant_id,
domain_id, version)`.  The JSON blob is opaque here.  `id` is the server-assigned
primary key, absent before the first insert. -/
structure TeamRow where
  id : Option Nat
  user_id : String
  component : String
  version : String
  tenant_id : Nat
  domain_id : Nat
  deriving DecidableEq, Repr

/-- Modelled from the spec: `Session(id, user_id, team_id, name, tenant_id, domain_id)`. -/
structure SessionRow where
  id : Option Nat
  user_id : String
  team_id : Option Nat
  name : String
  tenant_id : Nat
  domain_id : Nat
  deriving DecidableEq, Repr

/-- Modelled from the spec: `Run(id, session_id, user_id, status, task, team_result,
tenant_id, domain_id)`. -/
structure RunRow where
  id : Option Nat
  session_id : Nat
  user_id : String
  status : RunStatus
  task : String
  team_result : String
  tenant_id : Nat
  domain_id : Nat
  deriving DecidableEq, Repr

/-- Modelled from the spec: `Message(id, run_id, session_id, user_id, config,
created_at, tenant_id, domain_id)`.  `created_at` is a timestamp, modelled as Nat. -/
structure MessageRow where
  id : Option Nat
  run_id : Nat
  session_id : Nat
  user_id : String
  config : String
  created_at : Nat
  tenant_id : Nat
  domain_id : Nat
  deriving DecidableEq, Repr

/-- Modelled from the spec: `Gallery(id, user_id, config: JSON, tenant_id, domain_id)`. -/
structure GalleryRow where
  id : Option Nat
  user_id : String
  config : String
  tenant_id : Nat
  domain_id : Nat
  deriving DecidableEq, Repr

/-- Modelled from the spec: `Settings(id, user_id, config: JSON, tenant_id, domain_id)`. -/
structure SettingsRow where
  id : Option Nat
  user_id : String
  config : String
  tenant_id : Nat
  domain_id : Nat
  deriving DecidableEq, Repr

/-- A filter dictionary: the key/value equality constraints a route passes to
`db.get` / `db.delete`.  An absent key constrains nothing.  Only keys naming a
column of the queried entity are ever supplied by the routes. -/
structure Filters where
  id : Option Nat := none
  user_id : Option String := none
  tenant_id : Option Nat := none
  domain_id : Option Nat := none
  session_id : Option Nat := none
  run_id : Option Nat := none
  deriving DecidableEq, Repr

/-- One filter equality on a Nat column: absent key accepts, present key compares. -/
def natFilterOk (fv : Option Nat) (rv : Nat) : Bool :=
  match fv with
  | none => true
  | some v => rv == v

/-- One filter equality on a String column. -/
def strFilterOk (fv : Option String) (rv : String) : Bool :=
  match fv with
  | none => true
  | some v => rv == v

/-- One filter equality on the primary-key column (which is `Option Nat` in a row). -/
def idFilterOk (fv : Option Nat) (rv : Option Nat) : Bool :=
  match fv with
  | none => true
  | some v => rv == some v

/-- A Team row matches a filter dictionary when every supplied key equals the column. -/
def TeamRow.matches (r : TeamRow) (f : Filters) : Bool :=
  idFilterOk f.id r.id && strFilterOk f.user_id r.user_id &&
    natFilterOk f.tenant_id r.tenant_id && natFilterOk f.domain_id r.domain_id

/-- A Session row matches a filter dictionary when every supplied key equals the column. -/
def SessionRow.matches (r : SessionRow) (f : Filters) : Bool :=
  idFilterOk f.id r.id && strFilterOk f.user_id r.user_id &&
    natFilterOk f.tenant_id r.tenant_id && natFilterOk f.domain_id r.domain_id

/-- A Run row matches a filter dictionary when every supplied key equals the column. -/
def RunRow.matches (r : RunRow) (f : Filters) : Bool :=
  idFilterOk f.id r.id && strFilterOk f.user_id r.user_id &&
    natFilterOk f.tenant_id r.tenant_id && natFilterOk f.domain_id r.domain_id &&
    natFilterOk f.session_id r.session_id

/-- A Message row matches a filter dictionary when every supplied key equals the column. -/
def MessageRow.matches (r : MessageRow) (f : Filters) : Bool :=
  idFilterOk f.id r.id && strFilterOk f.user_id r.user_id &&
    natFilterOk f.tenant_id r.tenant_id && natFilterOk f.domain_id r.domain_id &&
    natFilterOk f.session_id r.session_id && natFilterOk f.run_id r.run_id

/-- A Gallery row matches a filter dictionary when every supplied key equals the column. -/
def GalleryRow.matches (r : GalleryRow) (f : Filters) : Bool :=
  idFilterOk f.id r.id && strFilterOk f.user_id r.user_id &&
    natFilterOk f.tenant_id r.tenant_id && natFilterOk f.domain_id r.domain_id

/-- A Settings row matches a filter dictionary when every supplied key equals the column. -/
def SettingsRow.matches (r : SettingsRow) (f : Filters) : Bool :=
  idFilterOk f.id r.id && strFilterOk f.user_id r.user_id &&
    natFilterOk f.tenant_id r.tenant_id && natFilterOk f.domain_id r.domain_id

/-- Result of `db.get`: status flag, list of matching rows, human message
(spec section 4.1: `Result{status, data: list|null, message}`; "no rows" is the
empty list here). -/
structure GetResult (α : Type) where
  status : Bool
  data : List α
  message : String

/-- Result of `db.upsert`: the persisted entity, including any server-assigned id
(spec section 4.1: upsert "returns the persisted entity"). -/
structure UpsertResult (α : Type) where
  status : Bool
  data : α
  message : String

/-- Result of `db.delete`: status flag and message. -/
structure DeleteResult where
  status : Bool
  message : String
  deriving DecidableEq, Repr

/-- Modelled from the spec: the database state behind `DatabaseManager` — one
table per entity, plus the next server-assigned primary key. -/
structure DB where
  teams : List TeamRow
  sessions : List SessionRow
  runs : List RunRow
  messages : List MessageRow
  galleries : List GalleryRow
  settings : List SettingsRow
  nextId : Nat

/-- Modelled from the spec: `get(Team, filters)` returns rows matching all filter
key/value equalities; empty match is not an error. -/
def dbGetTeams (db : DB) (f : Filters) : GetResult TeamRow :=
  { status := true, data := db.teams.filter (fun r => r.matches f), message := "Retrieved Successfully" }

/-- Modelled from the spec: `get(Session, filters)`. -/
def dbGetSessions (db : DB) (f : Filters) : GetResult SessionRow :=
  { status := true, data := db.sessions.filter (fun r => r.matches f), message := "Retrieved Successfully" }

/-- Modelled from the spec: `get(Run, filters)`. -/
def dbGetRuns (db : DB) (f : Filters) : GetResult RunRow :=
  { status := true, data := db.runs.filter (fun r => r.matches f), message := "Retrieved Successfully" }

/-- Modelled from the spec: `get(Message, filters)` without an order clause. -/
def dbGetMessages (db : DB) (f : Filters) : GetResult MessageRow :=
  { status := true, data := db.messages.filter (fun r => r.matches f), message := "Retrieved Successfully" }

/-- Modelled from the spec: `get(Gallery, filters)`. -/
def dbGetGalleries (db : DB) (f : Filters) : GetResult GalleryRow :=
  { status := true, data := db.galleries.filter (fun r => r.matches f), message := "Retrieved Successfully" }

/-- Modelled from the spec: `get(Settings, filters)`. -/
def dbGetSettings (db : DB) (f : Filters) : GetResult SettingsRow :=
  { status := true, data := db.settings.filter (fun r => r.matches f), message := "Retrieved Successfully" }

/-- Insert a message into a list already ordered by ascending `created_at`,
keeping the order.  Helper for the `order="created_at asc"` clause. -/
def insertByCreatedAt (m : MessageRow) : List MessageRow → List MessageRow
  | [] => [m]
  | x :: xs => if m.created_at ≤ x.created_at then m :: x :: xs else x :: insertByCreatedAt m xs

/-- Sort a list of messages by ascending `created_at` (insertion sort). -/
def sortByCreatedAt : List MessageRow → List MessageRow
  | [] => []
  | x :: xs => insertByCreatedAt x (sortByCreatedAt xs)

/-- Modelled from the spec: `get(Message, filters, order="created_at asc")` —
the matching rows, ordered by ascending `created_at`. -/
def dbGetMessagesByCreatedAt (db : DB) (f : Filters) : GetResult MessageRow :=
  { status := true,
    data := sortByCreatedAt (db.messages.filter (fun r => r.matches f)),
    message := "Retrieved Successfully" }

/-- Modelled from the spec: `upsert(team)` — inserts when no primary key is
present (assigning the next server id), else updates the row with that primary
key (inserting when no such row exists); returns the persisted entity. -/
def dbUpsertTeam (db : DB) (t : TeamRow) : UpsertResult TeamRow × DB :=
  match t.id with
  | none =>
      let t' := { t with id := some db.nextId }
      ({ status := true, data := t', message := "Created Successfully" },
       { db with teams := db.teams ++ [t'], nextId := db.nextId + 1 })
  | some i =>
      if db.teams.any (fun r => r.id == some i) then
        ({ status := true, data := t, message := "Updated Successfully" },
         { db with teams := db.teams.map (fun r => if r.id == some i then t else r) })
      else
        ({ status := true, data := t, message := "Created Successfully" },
         { db with teams := db.teams ++ [t] })

/-- Modelled from the spec: `upsert(gallery)` — same insert-or-update-by-primary-key
contract as for teams. -/
def dbUpsertGallery (db : DB) (g : GalleryRow) : UpsertResult GalleryRow × DB :=
  match g.id with
  | none =>
      let g' := { g with id := some db.nextId }
      ({ status := true, data := g', message := "Created Successfully" },
       { db with galleries := db.galleries ++ [g'], nextId := db.nextId + 1 })
  | some i =>
      if db.galleries.any (fun r => r.id == some i) then
        ({ status := true, data := g, message := "Updated Successfully" },
         { db with galleries := db.galleries.map (fun r => if r.id == some i then g else r) })
      else
        ({ status := true, data := g, message := "Created Successfully" },
         { db with galleries := db.galleries ++ [g] })

/-- Modelled from the spec: `delete(Team, filters)` removes the team rows matching
the filters (no cascade is declared for Team in the provided material) and
returns success even when zero rows matched. -/
def dbDeleteTeams (db : DB) (f : Filters) : DeleteResult × DB :=
  ({ status := true, message := "Deleted Successfully" },
   { db with teams := db.teams.filter (fun r => !(r.matches f)) })

/-- Modelled from the spec: `delete(Gallery, filters)`. -/
def dbDeleteGalleries (db : DB) (f : Filters) : DeleteResult × DB :=
  ({ status := true, message := "Deleted Successfully" },
   { db with galleries := db.galleries.filter (fun r => !(r.matches f)) })

/-- Modelled from the spec: `delete(Run, filters)` removes the matching runs and,
by the declared cascade rule, every message whose `run_id` is the id of a
deleted run. -/
def dbDeleteRuns (db : DB) (f : Filters) : DeleteResult × DB :=
  let deadRuns := db.runs.filter (fun r => r.matches f)
  ({ status := true, message := "Deleted Successfully" },
   { db with
       runs := db.runs.filter (fun r => !(r.matches f)),
       messages := db.messages.filter (fun m => !(deadRuns.any (fun r => r.id == some m.run_id))) })

/-- Modelled from the spec: `delete(Session, filters)` removes the matching
sessions and, by the declared cascade rules, every run whose `session_id` is the
id of a deleted session and every message whose `run_id` is the id of such a run. -/
def dbDeleteSessions (db : DB) (f : Filters) : DeleteResult × DB :=
  let deadSessions := db.sessions.filter (fun s => s.matches f)
  let deadRuns := db.runs.filter (fun r => deadSessions.any (fun s => s.id == some r.session_id))
  ({ status := true, message := "Deleted Successfully" },
   { db with
       sessions := db.sessions.filter (fun s => !(s.matches f)),
       runs := db.runs.filter (fun r => !(deadSessions.any (fun s => s.id == some r.session_id))),
       messages := db.messages.filter (fun m => !(deadRuns.any (fun r => r.id == some m.run_id))) })

/-- A route outcome: a normal response body, or a raised `HTTPException`
carrying a status code and a detail string. -/
inductive Http (α : Type) where
  | ok : α → Http α
  | error : Nat → String → Http α
  deriving DecidableEq

/-- The opaque component blob `create_default_gallery().components.teams[0].model_dump()`
used by `list_teams` (the gallery builder is outside the provided sources). -/
def defaultTeamComponent : String := "default_gallery_team_component"

/-- The default `version` column value of a freshly constructed Team row. -/
def defaultTeamVersion : String := "0.0.1"

/-- The opaque config blob `create_default_gallery().model_dump()` used by
`list_gallery_entries` (the gallery builder is outside the provided sources). -/
def defaultGalleryConfig : String := "default_gallery_config"

/-- The opaque config blob `SettingsConfig().model_dump()` used by `get_settings`. -/
def defaultSettingsConfig : String := "default_settings_config"

/-- The entity `update_gallery_entry` passes to `db.upsert`: the request body with
`id`, `user_id`, `tenant_id` and `domain_id` overwritten (gallery.py lines 39-42). -/
def update_gallery_entity (gallery_data : GalleryRow) (gallery_id : Nat) (u : String)
    (tid did : Nat) : GalleryRow :=
  { gallery_data with id := some gallery_id, user_id := u, tenant_id := tid, domain_id := did }

/-- `PUT /gallery/{gallery_id}` (gallery.py `update_gallery_entry`): fetch the row
scoped by id+tenant+domain, 404 when absent, 403 when the stored owner differs
from the caller's `user_id`, else upsert the overwritten body. -/
def update_gallery_entry (db : DB) (gallery_id : Nat) (gallery_data : GalleryRow)
    (u : String) (tid did : Nat) : Http (UpsertResult GalleryRow) × DB :=
  let result := dbGetGalleries db { id := some gallery_id, tenant_id := some tid, domain_id := some did }
  if !result.status then (.error 404 "Gallery entry not found", db)
  else
    match result.data with
    | [] => (.error 404 "Gallery entry not found", db)
    | g :: _ =>
      if g.user_id != u then (.error 403 "Not authorized to update this gallery entry", db)
      else
        let out := dbUpsertGallery db (update_gallery_entity gallery_data gallery_id u tid did)
        (.ok out.1, out.2)

/-- `DELETE /gallery/{gallery_id}` (gallery.py `delete_gallery_entry`): fetch the
row scoped by id+user_id+tenant+domain, 404 when absent, else delete by
id+tenant+domain and return the delete response. -/
def delete_gallery_entry (db : DB) (gallery_id : Nat) (u : String) (tid did : Nat) :
    Http DeleteResult × DB :=
  let result := dbGetGalleries db
    { id := some gallery_id, user_id := some u, tenant_id := some tid, domain_id := some did }
  if !result.status || result.data.isEmpty then (.error 404 "Gallery entry not found", db)
  else
    let out := dbDeleteGalleries db { id := some gallery_id, tenant_id := some tid, domain_id := some did }
    (.ok out.1, out.2)

/-- The entity `create_gallery_entry` passes to `db.upsert`: the request body with
only `tenant_id` and `domain_id` overwritten (gallery.py lines 53-54). -/
def create_gallery_entity (gallery_data : GalleryRow) (tid did : Nat) : GalleryRow :=
  { gallery_data with tenant_id := tid, domain_id := did }

/-- `POST /gallery` (gallery.py `create_gallery_entry`), parametric in the injected
`db.upsert`: 400 with the upsert message on failure, else the upsert response. -/
def create_gallery_entry (gallery_data : GalleryRow) (tid did : Nat)
    (upsert : GalleryRow → UpsertResult GalleryRow) : Http (UpsertResult GalleryRow) :=
  let response := upsert (create_gallery_entity gallery_data tid did)
  if !response.status then .error 400 response.message
  else .ok response

/-- The default gallery row `list_gallery_entries` synthesizes when the scope is empty. -/
def default_gallery_entry (u : String) (tid did : Nat) : GalleryRow :=
  { id := none, user_id := u, config := defaultGalleryConfig, tenant_id := tid, domain_id := did }

/-- `GET /gallery` (gallery.py `list_gallery_entries`), parametric in the outcomes
of the db calls inside its try block (`Except.error` models the call raising):
get by user+tenant+domain; when empty, upsert a default entry and re-query; a
raised exception is caught and turned into a normal `GetResult` with status
false and a prefixed message — not into an HTTP error. -/
def list_gallery_entries (u : String) (tid did : Nat)
    (get1 : Except String (GetResult GalleryRow))
    (ups : GalleryRow → Except String (UpsertResult GalleryRow))
    (get2 : Except String (GetResult GalleryRow)) : GetResult GalleryRow :=
  let body : Except String (GetResult GalleryRow) := do
    let result ← get1
    if result.data.isEmpty then do
      let _ ← ups (default_gallery_entry u tid did)
      get2
    else pure result
  match body with
  | .ok r => r
  | .error e => { status := false, data := [], message := "Error retrieving gallery entries: " ++ e }

/-- The default team row `list_teams` synthesizes when the scope is empty
(teams.py lines 31-37). -/
def default_team (u : String) (tid did : Nat) : TeamRow :=
  { id := none, user_id := u, component := defaultTeamComponent,
    version := defaultTeamVersion, tenant_id := tid, domain_id := did }

/-- `GET /teams` (teams.py `list_teams`): get by user+tenant+domain; when empty,
upsert a default team and re-query; return status true with the data. -/
def list_teams (db : DB) (u : String) (tid did : Nat) : (Bool × List TeamRow) × DB :=
  let response := dbGetTeams db { user_id := some u, tenant_id := some tid, domain_id := some did }
  if response.data.isEmpty then
    let db1 := (dbUpsertTeam db (default_team u tid did)).2
    let response1 := dbGetTeams db1 { user_id := some u, tenant_id := some tid, domain_id := some did }
    ((true, response1.data), db1)
  else
    ((true, response.data), db)

/-- The entity `create_team` passes to `db.upsert`: the request body with only
`tenant_id` and `domain_id` overwritten (teams.py lines 83-84). -/
def create_team_entity (team : TeamRow) (tid did : Nat) : TeamRow :=
  { team with tenant_id := tid, domain_id := did }

/-- `POST /teams` (teams.py `create_team`), parametric in the injected `db.upsert`:
400 with the upsert message on failure, else status true with the upsert data. -/
def create_team (team : TeamRow) (tid did : Nat)
    (upsert : TeamRow → UpsertResult TeamRow) : Http (Bool × TeamRow) :=
  let response := upsert (create_team_entity team tid did)
  if !response.status then .error 400 response.message
  else .ok (true, response.data)

/-- `DELETE /teams/{team_id}` (teams.py `delete_team`): no prior fetch and no
ownership or existence check — delete by id+user_id+tenant+domain, then return
success unconditionally, ignoring the delete response. -/
def delete_team (db : DB) (team_id : Nat) (u : String) (tid did : Nat) :
    Http (Bool × String) × DB :=
  let out := dbDeleteTeams db
    { id := some team_id, user_id := some u, tenant_id := some tid, domain_id := some did }
  (.ok (true, "Team deleted successfully"), out.2)

/-- The run `create_run` constructs before upserting (runs.py lines 45-56):
fresh state, empty task and result. -/
def new_run (session_id : Nat) (u : String) (tid did : Nat) : RunRow :=
  { id := none, session_id := session_id, user_id := u, status := RunStatus.CREATED,
    task := "", team_result := "", tenant_id := tid, domain_id := did }

/-- `POST /runs` (runs.py `create_run`), parametric in the session lookup result
and in the outcome of the upsert inside its try block: 404 when the scoped
session lookup is empty, 500 carrying the exception message verbatim when the
upsert raises, else the upsert status and the new run id. -/
def create_run (session_response : GetResult SessionRow) (session_id : Nat) (u : String)
    (tid did : Nat) (ups : RunRow → Except String (UpsertResult RunRow)) :
    Http (Bool × Option Nat) :=
  if !session_response.status || session_response.data.isEmpty then
    .error 404 "Session not found"
  else
    match ups (new_run session_id u tid did) with
    | .error e => .error 500 e
    | .ok run => .ok (run.status, run.data.id)

/-- `GET /runs/{run_id}/messages` (runs.py `get_run_messages`): no existence check
on the run — get messages by run+tenant+domain ordered by ascending
`created_at` and return status true with the data. -/
def get_run_messages (db : DB) (run_id tid did : Nat) : Bool × List MessageRow :=
  let messages := dbGetMessagesByCreatedAt db
    { run_id := some run_id, tenant_id := some tid, domain_id := some did }
  (true, messages.data)

/-- The default settings row `get_settings` synthesizes when the scope is empty. -/
def default_settings (u : String) (tid did : Nat) : SettingsRow :=
  { id := none, user_id := u, config := defaultSettingsConfig, tenant_id := tid, domain_id := did }

/-- `GET /settings` (settingsroute.py `get_settings`), parametric in the outcomes
of the db calls inside its try block: get by user+tenant+domain; when the result
has false status or no data, upsert a default row and re-query; return status
true with the first row.  Any exception inside the block — including the index
error when the re-query is still empty — becomes an HTTP 500 whose detail is
the exception message verbatim. -/
def get_settings (u : String) (tid did : Nat)
    (get1 : Except String (GetResult SettingsRow))
    (ups : SettingsRow → Except String (UpsertResult SettingsRow))
    (get2 : Except String (GetResult SettingsRow)) : Http (Bool × SettingsRow) :=
  let body : Except String (Bool × SettingsRow) := do
    let response ← get1
    let response ← (if !response.status || response.data.isEmpty then do
        let _ ← ups (default_settings u tid did)
        get2
      else pure response)
    match response.data with
    | r :: _ => pure (true, r)
    | [] => Except.error "list index out of range"
  match body with
  | .ok out => .ok out
  | .error e => .error 500 e

/-- The entity `update_settings` passes to `db.upsert`: the request body with only
`tenant_id` and `domain_id` overwritten (settingsroute.py lines 63-64). -/
def update_settings_entity (settings : SettingsRow) (tid did : Nat) : SettingsRow :=
  { settings with tenant_id := tid, domain_id := did }

/-- `PUT /settings` (settingsroute.py `update_settings`), parametric in the
injected `db.upsert`: 400 with the upsert message on failure, else status true
with the upsert data. -/
def update_settings (settings : SettingsRow) (tid did : Nat)
    (upsert : SettingsRow → UpsertResult SettingsRow) : Http (Bool × SettingsRow) :=
  let response := upsert (update_settings_entity settings tid did)
  if !response.status then .error 400 response.message
  else .ok (true, response.data)

/-! ### Helper lemmas -/

/-- A supplied Nat filter key accepts exactly the filtered value. -/
theorem natFilterOk_some {B rv : Nat} (h : natFilterOk (some B) rv = true) : rv = B := by
  simpa [natFilterOk] using h

/-- A matching Team row carries the tenant_id supplied in the filter. -/
theorem teamMatches_tenant {r : TeamRow} {f : Filters} {B : Nat}
    (hf : f.tenant_id = some B) (hm : r.matches f = true) : r.tenant_id = B := by
  rw [TeamRow.matches, Bool.and_eq_true, Bool.and_eq_true, Bool.and_eq_true] at hm
  exact natFilterOk_some (hf ▸ hm.1.2)

/-- A matching Session row carries the tenant_id supplied in the filter. -/
theorem sessionMatches_tenant {r : SessionRow} {f : Filters} {B : Nat}
    (hf : f.tenant_id = some B) (hm : r.matches f = true) : r.tenant_id = B := by
  rw [SessionRow.matches, Bool.and_eq_true, Bool.and_eq_true, Bool.and_eq_true] at hm
  exact natFilterOk_some (hf ▸ hm.1.2)

/-- A matching Run row carries the tenant_id supplied in the filter. -/
theorem runMatches_tenant {r : RunRow} {f : Filters} {B : Nat}
    (hf : f.tenant_id = some B) (hm : r.matches f = true) : r.tenant_id = B := by
  rw [RunRow.matches] at hm
  simp only [Bool.and_eq_true] at hm
  exact natFilterOk_some (hf ▸ hm.1.1.2)

/-- A matching Message row carries the tenant_id supplied in the filter. -/
theorem messageMatches_tenant {r : MessageRow} {f : Filters} {B : Nat}
    (hf : f.tenant_id = some B) (hm : r.matches f = true) : r.tenant_id = B := by
  rw [MessageRow.matches] at hm
  simp only [Bool.and_eq_true] at hm
  exact natFilterOk_some (hf ▸ hm.1.1.1.2)

/-- A matching Gallery row carries the tenant_id supplied in the filter. -/
theorem galleryMatches_tenant {r : GalleryRow} {f : Filters} {B : Nat}
    (hf : f.tenant_id = some B) (hm : r.matches f = true) : r.tenant_id = B := by
  rw [GalleryRow.matches, Bool.and_eq_true, Bool.and_eq_true, Bool.and_eq_true] at hm
  exact natFilterOk_some (hf ▸ hm.1.2)

/-- A matching Settings row carries the tenant_id supplied in the filter. -/
theorem settingsMatches_tenant {r : SettingsRow} {f : Filters} {B : Nat}
    (hf : f.tenant_id = some B) (hm : r.matches f = true) : r.tenant_id = B := by
  rw [SettingsRow.matches, Bool.and_eq_true, Bool.and_eq_true, Bool.and_eq_true] at hm
  exact natFilterOk_some (hf ▸ hm.1.2)

/-- Filtering by a predicate that forces a column value B: every selected row has
value B, and a row whose value is A ≠ B is never selected. -/
theorem tenant_filter_spec {α : Type} (tnt : α → Nat) (p : α → Bool) (l : List α) (B : Nat)
    (hp : ∀ r, p r = true → tnt r = B) :
    (∀ r ∈ l.filter p, tnt r = B) ∧
      (∀ A, A ≠ B → ∀ r ∈ l, tnt r = A → r ∉ l.filter p) := by
  constructor
  · intro r hr
    exact hp r (List.of_mem_filter hr)
  · intro A hAB r _ hA hmem
    exact hAB (by rw [← hA]; exact hp r (List.of_mem_filter hmem))

/-! ### C1 -/

/-- An example team row under tenant 1. -/
def exTeamT1 : TeamRow :=
  { id := some 1, user_id := "u1", component := "c", version := "0.0.1",
    tenant_id := 1, domain_id := 1 }

/-- An example database holding only `exTeamT1`. -/
def exDbC1 : DB :=
  { teams := [exTeamT1], sessions := [], runs := [], messages := [],
    galleries := [], settings := [], nextId := 2 }

/-- An example filter scoped to tenant 2. -/
def exFilterT2 : Filters := { tenant_id := some 2 }

/-- C1: cross-tenant isolation — for every entity type, a `get` whose filters
include `tenant_id = B` returns only rows whose `tenant_id` is exactly B, and
never returns a row created with `tenant_id = A` for A ≠ B. -/
theorem C1_cross_tenant_isolation (db : DB) (f : Filters) (A B : Nat)
    (hAB : A ≠ B) (hf : f.tenant_id = some B) :
    ((∀ r ∈ (dbGetTeams db f).data, r.tenant_id = B) ∧
       ∀ r ∈ db.teams, r.tenant_id = A → r ∉ (dbGetTeams db f).data) ∧
    ((∀ r ∈ (dbGetSessions db f).data, r.tenant_id = B) ∧
       ∀ r ∈ db.sessions, r.tenant_id = A → r ∉ (dbGetSessions db f).data) ∧
    ((∀ r ∈ (dbGetRuns db f).data, r.tenant_id = B) ∧
       ∀ r ∈ db.runs, r.tenant_id = A → r ∉ (dbGetRuns db f).data) ∧
    ((∀ r ∈ (dbGetMessages db f).data, r.tenant_id = B) ∧
       ∀ r ∈ db.messages, r.tenant_id = A → r ∉ (dbGetMessages db f).data) ∧
    ((∀ r ∈ (dbGetGalleries db f).data, r.tenant_id = B) ∧
       ∀ r ∈ db.galleries, r.tenant_id = A → r ∉ (dbGetGalleries db f).data) ∧
    ((∀ r ∈ (dbGetSettings db f).data, r.tenant_id = B) ∧
       ∀ r ∈ db.settings, r.tenant_id = A → r ∉ (dbGetSettings db f).data) := by
  refine ⟨?_, ?_, ?_, ?_, ?_, ?_⟩ <;>
    [ (have h := tenant_filter_spec (fun r => r.tenant_id) (fun r => r.matches f) db.teams B
         (fun r hr => teamMatches_tenant hf hr));
      (have h := tenant_filter_spec (fun r => r.tenant_id) (fun r => r.matches f) db.sessions B
         (fun r hr => sessionMatches_tenant hf hr));
      (have h := tenant_filter_spec (fun r => r.tenant_id) (fun r => r.matches f) db.runs B
         (fun r hr => runMatches_tenant hf hr));
      (have h := tenant_filter_spec (fun r => r.tenant_id) (fun r => r.matches f) db.messages B
         (fun r hr => messageMatches_tenant hf hr));
      (have h := tenant_filter_spec (fun r => r.tenant_id) (fun r => r.matches f) db.galleries B
         (fun r hr => galleryMatches_tenant hf hr));
      (have h := tenant_filter_spec (fun r => r.tenant_id) (fun r => r.matches f) db.settings B
         (fun r hr => settingsMatches_tenant hf hr))] <;>
    exact ⟨h.1, fun r hr hA => h.2 A hAB r hr hA⟩

/-- C1 witness: in a store holding one team under tenant 1, a get filtered to
tenant 2 does not return it. -/
theorem C1_cross_tenant_isolation_witness :
    (1 : Nat) ≠ 2 ∧ exTeamT1 ∉ (dbGetTeams exDbC1 exFilterT2).data :=
  ⟨by decide,
   (C1_cross_tenant_isolation exDbC1 exFilterT2 1 2 (by decide) rfl).1.2 exTeamT1
     (by simp [exDbC1]) rfl⟩

/-! ### C2 -/

/-- An example session with id 1. -/
def exSession1 : SessionRow :=
  { id := some 1, user_id := "u1", team_id := some 1, name := "S1", tenant_id := 1, domain_id := 1 }

/-- An example run with id 1 belonging to session 1. -/
def exRun1 : RunRow :=
  { id := some 1, session_id := 1, user_id := "u1", status := RunStatus.COMPLETE,
    task := "t", team_result := "", tenant_id := 1, domain_id := 1 }

/-- An example message belonging to run 1. -/
def exMsg1 : MessageRow :=
  { id := some 1, run_id := 1, session_id := 1, user_id := "u1", config := "m",
    created_at := 0, tenant_id := 1, domain_id := 1 }

/-- An example database holding the session, run and message above. -/
def exDbC2 : DB :=
  { teams := [], sessions := [exSession1], runs := [exRun1], messages := [exMsg1],
    galleries := [], settings := [], nextId := 2 }

/-- C2: cascade delete — deleting a stored Session by id removes every Run whose
`session_id` is that Session's id and every Message whose `run_id` is the id of
one of those Runs; deleting a stored Run by id removes every Message with that
`run_id`. -/
theorem C2_cascade_delete :
    (∀ (db : DB) (s : SessionRow) (sid : Nat), s ∈ db.sessions → s.id = some sid →
      (∀ r ∈ ((dbDeleteSessions db { id := some sid }).2).runs, r.session_id ≠ sid) ∧
      (∀ m ∈ ((dbDeleteSessions db { id := some sid }).2).messages,
        ∀ r ∈ db.runs, r.session_id = sid → r.id ≠ some m.run_id)) ∧
    (∀ (db : DB) (r : RunRow) (rid : Nat), r ∈ db.runs → r.id = some rid →
      ∀ m ∈ ((dbDeleteRuns db { id := some rid }).2).messages, m.run_id ≠ rid) := by
  constructor
  · intro db s sid hs hsid
    have hsdead : s ∈ db.sessions.filter (fun s' => s'.matches { id := some sid }) :=
      List.mem_filter.mpr
        ⟨hs, by simp [SessionRow.matches, idFilterOk, strFilterOk, natFilterOk, hsid]⟩
    constructor
    · intro r hr hreq
      simp only [dbDeleteSessions] at hr
      have hmem := List.mem_filter.mp hr
      have hall := hmem.2
      rw [Bool.not_eq_true', List.any_eq_false] at hall
      exact hall s hsdead (by simp [hsid, hreq])
    · intro m hm r hr hrsess heq
      simp only [dbDeleteSessions] at hm
      have hmem := List.mem_filter.mp hm
      have hall := hmem.2
      rw [Bool.not_eq_true', List.any_eq_false] at hall
      have hrdead : r ∈ db.runs.filter (fun r' =>
          (db.sessions.filter (fun s' => s'.matches { id := some sid })).any
            (fun s' => s'.id == some r'.session_id)) := by
        refine List.mem_filter.mpr ⟨hr, ?_⟩
        rw [List.any_eq_true]
        exact ⟨s, hsdead, by simp [hsid, hrsess]⟩
      exact hall r hrdead (by simp [heq])
  · intro db r rid hr hrid m hm heq
    simp only [dbDeleteRuns] at hm
    have hmem := List.mem_filter.mp hm
    have hall := hmem.2
    rw [Bool.not_eq_true', List.any_eq_false] at hall
    have hrdead : r ∈ db.runs.filter (fun r' => r'.matches { id := some rid }) :=
      List.mem_filter.mpr
        ⟨hr, by simp [RunRow.matches, idFilterOk, strFilterOk, natFilterOk, hrid]⟩
    exact hall r hrdead (by simp [hrid, heq])

/-- C2 witness: deleting run 1 removes the message attached to run 1. -/
theorem C2_cascade_delete_witness :
    exRun1 ∈ exDbC2.runs ∧ exMsg1 ∉ ((dbDeleteRuns exDbC2 { id := some 1 }).2).messages :=
  ⟨by simp [exDbC2],
   fun hm => (C2_cascade_delete.2 exDbC2 exRun1 1 (by simp [exDbC2]) rfl) exMsg1 hm rfl⟩

/-! ### Route behaviour helper lemmas -/

/-- The modelled `get` always reports success. -/
theorem dbGetGalleries_status (db : DB) (f : Filters) : (dbGetGalleries db f).status = true := rfl

/-- The data field of the modelled gallery `get` is the equality-filtered list. -/
theorem dbGetGalleries_data (db : DB) (f : Filters) :
    (dbGetGalleries db f).data = db.galleries.filter (fun r => r.matches f) := rfl

/-- The data field of the modelled team `get` is the equality-filtered list. -/
theorem dbGetTeams_data (db : DB) (f : Filters) :
    (dbGetTeams db f).data = db.teams.filter (fun r => r.matches f) := rfl

/-- When the scoped lookup is empty, `PUT /gallery/{id}` raises 404 and leaves the
database unchanged. -/
theorem update_gallery_404 (db : DB) (gid : Nat) (gdata : GalleryRow) (u : String)
    (tid did : Nat)
    (hdata : (dbGetGalleries db { id := some gid, tenant_id := some tid, domain_id := some did }).data = []) :
    update_gallery_entry db gid gdata u tid did = (.error 404 "Gallery entry not found", db) := by
  simp only [update_gallery_entry, dbGetGalleries_status, hdata, Bool.not_true, if_false]
  rfl

/-- When the scoped lookup finds a row owned by someone else, `PUT /gallery/{id}`
raises 403 and leaves the database unchanged. -/
theorem update_gallery_403 (db : DB) (gid : Nat) (gdata : GalleryRow) (u : String)
    (tid did : Nat) (g : GalleryRow) (rest : List GalleryRow)
    (hdata : (dbGetGalleries db { id := some gid, tenant_id := some tid, domain_id := some did }).data = g :: rest)
    (howner : g.user_id ≠ u) :
    update_gallery_entry db gid gdata u tid did =
      (.error 403 "Not authorized to update this gallery entry", db) := by
  simp only [update_gallery_entry, dbGetGalleries_status, hdata, Bool.not_true, if_false]
  simp [howner]

/-- When the scoped lookup finds a row owned by the caller, `PUT /gallery/{id}`
upserts the overwritten body. -/
theorem update_gallery_ok (db : DB) (gid : Nat) (gdata : GalleryRow) (u : String)
    (tid did : Nat) (g : GalleryRow) (rest : List GalleryRow)
    (hdata : (dbGetGalleries db { id := some gid, tenant_id := some tid, domain_id := some did }).data = g :: rest)
    (howner : g.user_id = u) :
    update_gallery_entry db gid gdata u tid did =
      (.ok (dbUpsertGallery db (update_gallery_entity gdata gid u tid did)).1,
       (dbUpsertGallery db (update_gallery_entity gdata gid u tid did)).2) := by
  simp only [update_gallery_entry, dbGetGalleries_status, hdata, Bool.not_true, if_false]
  simp [howner]

/-- When the user-scoped lookup is empty — the row is absent, or owned by another
user — `DELETE /gallery/{id}` raises 404 and leaves the database unchanged. -/
theorem delete_gallery_404 (db : DB) (gid : Nat) (u : String) (tid did : Nat)
    (hdata : (dbGetGalleries db
      { id := some gid, user_id := some u, tenant_id := some tid, domain_id := some did }).data = []) :
    delete_gallery_entry db gid u tid did = (.error 404 "Gallery entry not found", db) := by
  simp [delete_gallery_entry, dbGetGalleries_status, hdata]

/-- When the user-scoped lookup finds a row, `DELETE /gallery/{id}` deletes by
id+tenant+domain and returns the delete response. -/
theorem delete_gallery_ok (db : DB) (gid : Nat) (u : String) (tid did : Nat)
    (g : GalleryRow) (rest : List GalleryRow)
    (hdata : (dbGetGalleries db
      { id := some gid, user_id := some u, tenant_id := some tid, domain_id := some did }).data = g :: rest) :
    delete_gallery_entry db gid u tid did =
      (.ok (dbDeleteGalleries db { id := some gid, tenant_id := some tid, domain_id := some did }).1,
       (dbDeleteGalleries db { id := some gid, tenant_id := some tid, domain_id := some did }).2) := by
  simp [delete_gallery_entry, dbGetGalleries_status, hdata]

/-- `DELETE /teams/{team_id}` performs no check at all: it always applies the
filtered delete and returns success. -/
theorem delete_team_spec (db : DB) (team_id : Nat) (u : String) (tid did : Nat) :
    delete_team db team_id u tid did =
      (.ok (true, "Team deleted successfully"),
       (dbDeleteTeams db
         { id := some team_id, user_id := some u, tenant_id := some tid, domain_id := some did }).2) := rfl

/-! ### C3 -/

/-- An example team owned by "alice". -/
def exTeamAlice : TeamRow :=
  { id := some 1, user_id := "alice", component := "c", version := "0.0.1",
    tenant_id := 1, domain_id := 1 }

/-- An example database holding only `exTeamAlice`. -/
def exDbC3 : DB :=
  { teams := [exTeamAlice], sessions := [], runs := [], messages := [],
    galleries := [], settings := [], nextId := 2 }

/-- C3 counterexample: the team with id 1 is stored and owned by "alice", yet
`DELETE /teams/1` issued by "bob" raises neither 404 nor 403 — it returns
success and leaves the row in place. -/
theorem C3_counterexample :
    exTeamAlice ∈ exDbC3.teams ∧ exTeamAlice.user_id ≠ "bob" ∧
    delete_team exDbC3 1 "bob" 1 1 = (.ok (true, "Team deleted successfully"), exDbC3) := by
  refine ⟨by simp [exDbC3], by decide, ?_⟩
  rfl

/-- C3 (amended): only `PUT /gallery/{id}` follows the full fetch / 404 / 403 /
mutate pattern.  `DELETE /gallery/{id}` fetches scoped by id+user_id+tenant+domain
and raises 404 when that lookup is empty — so an ownership mismatch yields 404,
never 403 — and then deletes.  `DELETE /teams/{team_id}` performs no fetch and no
not-found or forbidden check: it applies a delete filtered by
id+user_id+tenant+domain and returns success unconditionally. -/
theorem C3_mutating_route_pattern :
    (∀ (db : DB) (gid : Nat) (gdata : GalleryRow) (u : String) (tid did : Nat),
      ((dbGetGalleries db { id := some gid, tenant_id := some tid, domain_id := some did }).data = [] →
        update_gallery_entry db gid gdata u tid did = (.error 404 "Gallery entry not found", db)) ∧
      (∀ g rest,
        (dbGetGalleries db { id := some gid, tenant_id := some tid, domain_id := some did }).data = g :: rest →
        g.user_id ≠ u →
        update_gallery_entry db gid gdata u tid did =
          (.error 403 "Not authorized to update this gallery entry", db)) ∧
      (∀ g rest,
        (dbGetGalleries db { id := some gid, tenant_id := some tid, domain_id := some did }).data = g :: rest →
        g.user_id = u →
        update_gallery_entry db gid gdata u tid did =
          (.ok (dbUpsertGallery db (update_gallery_entity gdata gid u tid did)).1,
           (dbUpsertGallery db (update_gallery_entity gdata gid u tid did)).2))) ∧
    (∀ (db : DB) (gid : Nat) (u : String) (tid did : Nat),
      ((dbGetGalleries db
          { id := some gid, user_id := some u, tenant_id := some tid, domain_id := some did }).data = [] →
        delete_gallery_entry db gid u tid did = (.error 404 "Gallery entry not found", db)) ∧
      (∀ g rest,
        (dbGetGalleries db
          { id := some gid, user_id := some u, tenant_id := some tid, domain_id := some did }).data = g :: rest →
        delete_gallery_entry db gid u tid did =
          (.ok (dbDeleteGalleries db { id := some gid, tenant_id := some tid, domain_id := some did }).1,
           (dbDeleteGalleries db { id := some gid, tenant_id := some tid, domain_id := some did }).2))) ∧
    (∀ (db : DB) (team_id : Nat) (u : String) (tid did : Nat),
      delete_team db team_id u tid did =
        (.ok (true, "Team deleted successfully"),
         (dbDeleteTeams db
           { id := some team_id, user_id := some u, tenant_id := some tid, domain_id := some did }).2)) := by
  refine ⟨fun db gid gdata u tid did => ⟨?_, ?_, ?_⟩, fun db gid u tid did => ⟨?_, ?_⟩,
    fun db team_id u tid did => delete_team_spec db team_id u tid did⟩
  · exact update_gallery_404 db gid gdata u tid did
  · exact fun g rest hdata howner => update_gallery_403 db gid gdata u tid did g rest hdata howner
  · exact fun g rest hdata howner => update_gallery_ok db gid gdata u tid did g rest hdata howner
  · exact delete_gallery_404 db gid u tid did
  · exact fun g rest hdata => delete_gallery_ok db gid u tid did g rest hdata

/-! ### C4 -/

/-- An example gallery row owned by "alice". -/
def exGalleryAlice : GalleryRow :=
  { id := some 1, user_id := "alice", config := "cfg", tenant_id := 1, domain_id := 1 }

/-- An example database holding only `exGalleryAlice`. -/
def exDbC4 : DB :=
  { teams := [], sessions := [], runs := [], messages := [],
    galleries := [exGalleryAlice], settings := [], nextId := 2 }

/-- An example request body trying to take over the gallery row. -/
def exGalleryBody : GalleryRow :=
  { id := none, user_id := "bob", config := "new", tenant_id := 9, domain_id := 9 }

/-- C4: when the tenant/domain-scoped lookup of the gallery row finds it but its
stored owner differs from the caller's user_id, `PUT /gallery/{id}` raises 403
and leaves the database unchanged. -/
theorem C4_update_ownership_403 (db : DB) (gid : Nat) (gdata : GalleryRow) (u : String)
    (tid did : Nat) (g : GalleryRow) (rest : List GalleryRow)
    (hdata : (dbGetGalleries db { id := some gid, tenant_id := some tid, domain_id := some did }).data = g :: rest)
    (howner : g.user_id ≠ u) :
    update_gallery_entry db gid gdata u tid did =
      (.error 403 "Not authorized to update this gallery entry", db) :=
  update_gallery_403 db gid gdata u tid did g rest hdata howner

/-- C4 witness: "bob" attempting to update "alice"'s gallery row gets 403 and the
store is untouched. -/
theorem C4_update_ownership_403_witness :
    update_gallery_entry exDbC4 1 exGalleryBody "bob" 1 1 =
      (.error 403 "Not authorized to update this gallery entry", exDbC4) :=
  C4_update_ownership_403 exDbC4 1 exGalleryBody "bob" 1 1 exGalleryAlice [] rfl (by decide)

/-! ### C5 -/

/-- An example request body whose owner field names an attacker. -/
def exAttackerTeam : TeamRow :=
  { id := none, user_id := "attacker", component := "c", version := "0.0.1",
    tenant_id := 99, domain_id := 99 }

/-- C5 counterexample: `POST /teams` overwrites tenant_id and domain_id of the
request body, but the entity it passes to `db.upsert` keeps the client-supplied
`user_id` — so a client can persist a row under any owner it names. -/
theorem C5_counterexample :
    (create_team_entity exAttackerTeam 1 1).tenant_id = 1 ∧
    (create_team_entity exAttackerTeam 1 1).domain_id = 1 ∧
    (create_team_entity exAttackerTeam 1 1).user_id = "attacker" :=
  ⟨rfl, rfl, rfl⟩

/-- C5 (amended): before upsert, every mutating route overwrites `tenant_id` and
`domain_id` of the request body from the injected request context;
`PUT /gallery/{id}` additionally overwrites `id` and `user_id`; but
`POST /gallery`, `POST /teams` and `PUT /settings` keep the client-supplied
`user_id` unchanged. -/
theorem C5_context_overwrite :
    (∀ (g : GalleryRow) (tid did : Nat),
      (create_gallery_entity g tid did).tenant_id = tid ∧
      (create_gallery_entity g tid did).domain_id = did ∧
      (create_gallery_entity g tid did).user_id = g.user_id ∧
      (create_gallery_entity g tid did).id = g.id ∧
      (create_gallery_entity g tid did).config = g.config) ∧
    (∀ (t : TeamRow) (tid did : Nat),
      (create_team_entity t tid did).tenant_id = tid ∧
      (create_team_entity t tid did).domain_id = did ∧
      (create_team_entity t tid did).user_id = t.user_id ∧
      (create_team_entity t tid did).id = t.id ∧
      (create_team_entity t tid did).component = t.component) ∧
    (∀ (s : SettingsRow) (tid did : Nat),
      (update_settings_entity s tid did).tenant_id = tid ∧
      (update_settings_entity s tid did).domain_id = did ∧
      (update_settings_entity s tid did).user_id = s.user_id ∧
      (update_settings_entity s tid did).id = s.id ∧
      (update_settings_entity s tid did).config = s.config) ∧
    (∀ (g : GalleryRow) (gid : Nat) (u : String) (tid did : Nat),
      (update_gallery_entity g gid u tid did).tenant_id = tid ∧
      (update_gallery_entity g gid u tid did).domain_id = did ∧
      (update_gallery_entity g gid u tid did).user_id = u ∧
      (update_gallery_entity g gid u tid did).id = some gid ∧
      (update_gallery_entity g gid u tid did).config = g.config) :=
  ⟨fun _ _ _ => ⟨rfl, rfl, rfl, rfl, rfl⟩,
   fun _ _ _ => ⟨rfl, rfl, rfl, rfl, rfl⟩,
   fun _ _ _ => ⟨rfl, rfl, rfl, rfl, rfl⟩,
   fun _ _ _ _ _ => ⟨rfl, rfl, rfl, rfl, rfl⟩⟩

/-! ### C6 -/

/-- An example database with no rows at all. -/
def exDbEmpty : DB :=
  { teams := [], sessions := [], runs := [], messages := [],
    galleries := [], settings := [], nextId := 1 }

/-- C6: when no team row matches the (user, tenant, domain) scope, the first
`GET /teams` creates and returns exactly one default team in that scope, and a
second call made on the resulting state returns the same single team and changes
nothing. -/
theorem C6_default_team_bootstrap (db : DB) (u : String) (tid did : Nat)
    (hempty : ∀ r ∈ db.teams,
      r.matches { user_id := some u, tenant_id := some tid, domain_id := some did } = false) :
    ∃ t : TeamRow,
      (list_teams db u tid did).1.2 = [t] ∧
      t.user_id = u ∧ t.tenant_id = tid ∧ t.domain_id = did ∧
      (list_teams (list_teams db u tid did).2 u tid did).1.2 = [t] ∧
      (list_teams (list_teams db u tid did).2 u tid did).2 = (list_teams db u tid did).2 := by
  have hfil : (dbGetTeams db { user_id := some u, tenant_id := some tid, domain_id := some did }).data = [] := by
    rw [dbGetTeams_data, List.filter_eq_nil_iff]
    intro r hr
    simp [hempty r hr]
  have hmatch : ({ default_team u tid did with id := some db.nextId } : TeamRow).matches
      { user_id := some u, tenant_id := some tid, domain_id := some did } = true := by
    simp [TeamRow.matches, idFilterOk, strFilterOk, natFilterOk, default_team]
  have hget1 : (dbGetTeams ((dbUpsertTeam db (default_team u tid did)).2)
      { user_id := some u, tenant_id := some tid, domain_id := some did }).data =
      [{ default_team u tid did with id := some db.nextId }] := by
    rw [dbGetTeams_data]
    show (db.teams ++ [{ default_team u tid did with id := some db.nextId }]).filter _ = _
    rw [List.filter_append]
    rw [dbGetTeams_data] at hfil
    rw [hfil, List.nil_append]
    simp [List.filter_cons, hmatch]
  have hout1 : list_teams db u tid did =
      ((true, [{ default_team u tid did with id := some db.nextId }]),
        (dbUpsertTeam db (default_team u tid did)).2) := by
    simp only [list_teams, hfil, hget1, List.isEmpty_nil, if_true]
  have hout2 : list_teams ((dbUpsertTeam db (default_team u tid did)).2) u tid did =
      ((true, [{ default_team u tid did with id := some db.nextId }]),
        (dbUpsertTeam db (default_team u tid did)).2) := by
    simp only [list_teams, hget1, List.isEmpty_cons, if_false]
    rfl
  refine ⟨{ default_team u tid did with id := some db.nextId }, ?_, rfl, rfl, rfl, ?_, ?_⟩
  · rw [hout1]
  · rw [hout1]
    rw [hout2]
  · rw [hout1]
    rw [hout2]

/-- C6 witness: on an empty store the first `GET /teams` for "u1" in tenant 1 /
domain 1 returns exactly one default team, and the second call repeats it with no
duplicate. -/
theorem C6_default_team_bootstrap_witness :
    ∃ t : TeamRow,
      (list_teams exDbEmpty "u1" 1 1).1.2 = [t] ∧
      t.user_id = "u1" ∧ t.tenant_id = 1 ∧ t.domain_id = 1 ∧
      (list_teams (list_teams exDbEmpty "u1" 1 1).2 "u1" 1 1).1.2 = [t] ∧
      (list_teams (list_teams exDbEmpty "u1" 1 1).2 "u1" 1 1).2 = (list_teams exDbEmpty "u1" 1 1).2 :=
  C6_default_team_bootstrap exDbEmpty "u1" 1 1 (by simp [exDbEmpty])

/-! ### C7 -/

/-- C7: each route that calls `db.upsert` directly — `POST /gallery`, `POST /teams`
and `PUT /settings` — raises 400 carrying the upsert message when the upsert
result has false status, and returns the upsert result without error when the
status is true. -/
theorem C7_upsert_status_routes :
    (∀ (g : GalleryRow) (tid did : Nat) (ups : GalleryRow → UpsertResult GalleryRow),
      ((ups (create_gallery_entity g tid did)).status = false →
        create_gallery_entry g tid did ups =
          .error 400 (ups (create_gallery_entity g tid did)).message) ∧
      ((ups (create_gallery_entity g tid did)).status = true →
        create_gallery_entry g tid did ups = .ok (ups (create_gallery_entity g tid did)))) ∧
    (∀ (t : TeamRow) (tid did : Nat) (ups : TeamRow → UpsertResult TeamRow),
      ((ups (create_team_entity t tid did)).status = false →
        create_team t tid did ups = .error 400 (ups (create_team_entity t tid did)).message) ∧
      ((ups (create_team_entity t tid did)).status = true →
        create_team t tid did ups = .ok (true, (ups (create_team_entity t tid did)).data))) ∧
    (∀ (s : SettingsRow) (tid did : Nat) (ups : SettingsRow → UpsertResult SettingsRow),
      ((ups (update_settings_entity s tid did)).status = false →
        update_settings s tid did ups = .error 400 (ups (update_settings_entity s tid did)).message) ∧
      ((ups (update_settings_entity s tid did)).status = true →
        update_settings s tid did ups = .ok (true, (ups (update_settings_entity s tid did)).data))) := by
  refine ⟨fun g tid did ups => ⟨fun h => ?_, fun h => ?_⟩,
    fun t tid did ups => ⟨fun h => ?_, fun h => ?_⟩,
    fun s tid did ups => ⟨fun h => ?_, fun h => ?_⟩⟩ <;>
  simp [create_gallery_entry, create_team, update_settings, h]

/-! ### C8 -/

/-- An example upsert outcome that always succeeds, for instantiating the
parametric gallery route. -/
def exOkGalleryUpsert : GalleryRow → Except String (UpsertResult GalleryRow) :=
  fun g => .ok { status := true, data := g, message := "Created Successfully" }

/-- An example re-query outcome returning no rows. -/
def exOkGalleryGet : Except String (GetResult GalleryRow) :=
  .ok { status := true, data := [], message := "Retrieved Successfully" }

/-- C8 counterexample: when the first db call inside `GET /gallery` raises
"boom", the route answers with a normal response — status false, empty data and
a prefixed message — not with an HTTP 500 carrying "boom" verbatim. -/
theorem C8_counterexample :
    list_gallery_entries "u1" 1 1 (Except.error "boom") exOkGalleryUpsert exOkGalleryGet =
      { status := false, data := [], message := "Error retrieving gallery entries: boom" } ∧
    "Error retrieving gallery entries: boom" ≠ "boom" :=
  ⟨rfl, by decide⟩

/-- C8 (amended): `POST /runs` and `GET /settings` surface an exception raised
inside their try block as HTTP 500 whose detail is the exception message
verbatim; `GET /gallery` instead catches the exception and returns a normal
response with status false and the message prefixed with
"Error retrieving gallery entries: "; the remaining routes install no handler of
their own. -/
theorem C8_exception_surfacing :
    (∀ (sr : GetResult SessionRow) (sid : Nat) (u : String) (tid did : Nat)
        (ups : RunRow → Except String (UpsertResult RunRow)) (e : String)
        (s : SessionRow) (rest : List SessionRow),
      sr.status = true → sr.data = s :: rest →
      ups (new_run sid u tid did) = .error e →
      create_run sr sid u tid did ups = .error 500 e) ∧
    (∀ (u : String) (tid did : Nat)
        (ups : SettingsRow → Except String (UpsertResult SettingsRow))
        (g2 : Except String (GetResult SettingsRow)) (e : String),
      get_settings u tid did (.error e) ups g2 = .error 500 e) ∧
    (∀ (u : String) (tid did : Nat)
        (ups : GalleryRow → Except String (UpsertResult GalleryRow))
        (g2 : Except String (GetResult GalleryRow)) (e : String),
      list_gallery_entries u tid did (.error e) ups g2 =
        { status := false, data := [], message := "Error retrieving gallery entries: " ++ e }) := by
  refine ⟨?_, ?_, ?_⟩
  · intro sr sid u tid did ups e s rest hstatus hdata hups
    simp [create_run, hstatus, hdata, hups]
  · intro u tid did ups g2 e
    rfl
  · intro u tid did ups g2 e
    rfl

/-! ### C9 -/

/-- C9: the modelled `delete` removes exactly the rows matching every filter
equality and reports success even when zero rows matched; consequently
`DELETE /teams/{team_id}` reports success for every team_id — including an id
with no matching row, or a row owned by a different user, which is then left in
place. -/
theorem C9_delete_returns_success :
    (∀ (db : DB) (f : Filters),
      (dbDeleteTeams db f).1 = { status := true, message := "Deleted Successfully" } ∧
      ∀ r : TeamRow, r ∈ (dbDeleteTeams db f).2.teams ↔ r ∈ db.teams ∧ r.matches f = false) ∧
    (∀ (db : DB) (team_id : Nat) (u : String) (tid did : Nat),
      (delete_team db team_id u tid did).1 = .ok (true, "Team deleted successfully")) ∧
    (∀ (db : DB) (team_id : Nat) (u : String) (tid did : Nat) (r : TeamRow),
      r ∈ db.teams → r.user_id ≠ u → r ∈ (delete_team db team_id u tid did).2.teams) := by
  refine ⟨fun db f => ⟨rfl, fun r => ?_⟩, fun db team_id u tid did => rfl,
    fun db team_id u tid did r hr hne => ?_⟩
  · show r ∈ db.teams.filter (fun r' => !(r'.matches f)) ↔ _
    rw [List.mem_filter]
    simp [Bool.not_eq_true']
  · show r ∈ db.teams.filter _
    refine List.mem_filter.mpr ⟨hr, ?_⟩
    simp [TeamRow.matches, strFilterOk, hne]

/-! ### C10 -/

/-- Inserting into the sorted message list only adds the inserted element. -/
theorem mem_insertByCreatedAt {m a : MessageRow} {l : List MessageRow} :
    a ∈ insertByCreatedAt m l ↔ a = m ∨ a ∈ l := by
  induction l with
  | nil => simp [insertByCreatedAt]
  | cons x xs ih =>
    simp only [insertByCreatedAt]
    split
    · simp [List.mem_cons]
    · simp only [List.mem_cons, ih]
      tauto

/-- Sorting the message list preserves membership. -/
theorem mem_sortByCreatedAt {a : MessageRow} {l : List MessageRow} :
    a ∈ sortByCreatedAt l ↔ a ∈ l := by
  induction l with
  | nil => simp [sortByCreatedAt]
  | cons x xs ih => simp [sortByCreatedAt, mem_insertByCreatedAt, ih]

/-- Inserting into a list ordered by ascending `created_at` keeps it ordered. -/
theorem pairwise_insertByCreatedAt {m : MessageRow} {l : List MessageRow}
    (h : l.Pairwise (fun a b => a.created_at ≤ b.created_at)) :
    (insertByCreatedAt m l).Pairwise (fun a b => a.created_at ≤ b.created_at) := by
  induction l with
  | nil => simp [insertByCreatedAt]
  | cons x xs ih =>
    rw [List.pairwise_cons] at h
    simp only [insertByCreatedAt]
    split
    · rename_i hle
      rw [List.pairwise_cons]
      refine ⟨?_, List.pairwise_cons.mpr h⟩
      intro b hb
      rcases List.mem_cons.mp hb with rfl | hb'
      · exact hle
      · exact le_trans hle (h.1 b hb')
    · rename_i hgt
      rw [List.pairwise_cons]
      refine ⟨?_, ih h.2⟩
      intro b hb
      rcases mem_insertByCreatedAt.mp hb with rfl | hb'
      · exact le_of_not_le hgt
      · exact h.1 b hb'

/-- Insertion sort by `created_at` yields an ascending list. -/
theorem pairwise_sortByCreatedAt (l : List MessageRow) :
    (sortByCreatedAt l).Pairwise (fun a b => a.created_at ≤ b.created_at) := by
  induction l with
  | nil => simp [sortByCreatedAt]
  | cons x xs ih => exact pairwise_insertByCreatedAt ih

/-- C10: `GET /runs/{run_id}/messages` performs no existence check on the run —
for every run_id it returns status true (never a 404) together with exactly the
messages matching run_id, tenant_id and domain_id, ordered by ascending
`created_at`. -/
theorem C10_run_messages_no_existence_check (db : DB) (run_id tid did : Nat) :
    (get_run_messages db run_id tid did).1 = true ∧
    (∀ m : MessageRow, m ∈ (get_run_messages db run_id tid did).2 ↔
      m ∈ db.messages ∧ m.run_id = run_id ∧ m.tenant_id = tid ∧ m.domain_id = did) ∧
    (get_run_messages db run_id tid did).2.Pairwise
      (fun a b => a.created_at ≤ b.created_at) := by
  refine ⟨rfl, ?_, ?_⟩
  · intro m
    show m ∈ sortByCreatedAt (db.messages.filter _) ↔ _
    rw [mem_sortByCreatedAt, List.mem_filter]
    simp only [MessageRow.matches, idFilterOk, strFilterOk, natFilterOk, Bool.and_eq_true,
      beq_iff_eq]
    tauto
  · exact pairwise_sortByCreatedAt _
